import Mathlib

/-!
Verification development for the `mdbook-rfc` companion tool and preprocessor
plugin.  The Rust sources (`src/main.rs`, `src/preprocessor.rs`,
`src/config.rs`, `src/error.rs`) are shallowly embedded below: JSON values and
the book model are explicit inductive types, the handshake decoder and the
semantic-version check are executable functions, and the CLI subcommand
handlers are modelled as functions from an environment (the outcomes of the
filesystem and child-process operations they perform) to a result together
with a trace of the effects they emit.
-/

/-! ## JSON values

`serde_json::Value`, restricted to what the handshake uses.  Arrays and
objects are represented by mutually inductive list types so that all
recursion over them is structural. -/

mutual
/-- A JSON value. -/
inductive Json where
  | null
  | bool (b : Bool)
  | num (n : Int)
  | str (s : String)
  | arr (xs : JsonList)
  | obj (fs : JsonFields)
deriving DecidableEq

/-- A list of JSON values (the contents of a JSON array). -/
inductive JsonList where
  | nil
  | cons (hd : Json) (tl : JsonList)
deriving DecidableEq

/-- The fields of a JSON object, in document order. -/
inductive JsonFields where
  | nil
  | cons (key : String) (val : Json) (tl : JsonFields)
deriving DecidableEq
end

/-- Build an object field list from an ordinary Lean list. -/
def fieldsOf : List (String × Json) → JsonFields
  | [] => .nil
  | (k, v) :: rest => .cons k v (fieldsOf rest)

/-- Build a JSON array body from an ordinary Lean list. -/
def arrOf : List Json → JsonList
  | [] => .nil
  | j :: rest => .cons j (arrOf rest)

/-- First binding of `key` in an object, as `toml::Value::get` /
`serde_json::Map::get` would find it. -/
def JsonFields.lookup : JsonFields → String → Option Json
  | .nil, _ => none
  | .cons k v rest, key => if k = key then some v else rest.lookup key

/-- Whether an object has a binding for `key` (`Table::contains_key`). -/
def JsonFields.containsKey : JsonFields → String → Bool
  | .nil, _ => false
  | .cons k _ rest, key => k == key || rest.containsKey key

/-- `Value::get` on a value: only tables/objects can be indexed by key. -/
def Json.get : Json → String → Option Json
  | .obj fs, key => fs.lookup key
  | _, _ => none

/-- `Value::as_table` / `as_object`. -/
def Json.asObj : Json → Option JsonFields
  | .obj fs => some fs
  | _ => none

/-! ## The document tree (`mdbook::book::Book`)

`BookItem` is the externally tagged enum `Chapter | Separator | PartTitle`;
`Chapter` carries the fields of `mdbook::book::Chapter`.  Sub-item lists are
a mutually inductive list type, again to keep recursion structural. -/

mutual
/-- One item of the book: a chapter, a separator, or a part title. -/
inductive BookItem where
  | Chapter (name : String) (content : String) (number : Option (List Nat))
      (sub_items : BookItems) (path : Option String) (source_path : Option String)
      (parent_names : List String)
  | Separator
  | PartTitle (title : String)
deriving DecidableEq

/-- A list of book items. -/
inductive BookItems where
  | nil
  | cons (hd : BookItem) (tl : BookItems)
deriving DecidableEq
end

/-- The document tree exchanged in the handshake. -/
structure Book where
  sections : BookItems
deriving DecidableEq

/-! ## Decoding the handshake payload

`CmdPreprocessor::parse_input` deserializes a two-element JSON array into
`(PreprocessorContext, Book)`.  Decoding is all-or-nothing: any missing
required field, wrong type, duplicate field, or wrong array arity yields
`none`.  Unknown fields are ignored (serde's default), and fields of option
type may be absent or `null`. -/

/-- The invocation context (`mdbook::preprocess::PreprocessorContext`). -/
structure PreprocessorContext where
  root : String
  config : Json
  renderer : String
  mdbook_version : String
deriving DecidableEq

/-- Decode a JSON value into a non-negative integer. -/
def decodeNat : Json → Option Nat
  | .num n => if n < 0 then none else some n.toNat
  | _ => none

/-- Decode the body of a JSON array of numbers (a `SectionNumber`). -/
def decodeNatListAux : JsonList → Option (List Nat)
  | .nil => some []
  | .cons j rest =>
    match decodeNat j with
    | some n => (decodeNatListAux rest).map (n :: ·)
    | none => none

/-- Decode an optional section number: absent handled by the caller,
`null` is `none`, an array is `some`. -/
def decodeOptNumber : Json → Option (Option (List Nat))
  | .null => some none
  | .arr xs => (decodeNatListAux xs).map some
  | _ => none

/-- Decode an optional string (a `Option<PathBuf>` field). -/
def decodeOptString : Json → Option (Option String)
  | .null => some none
  | .str s => some (some s)
  | _ => none

/-- Decode the body of a JSON array of strings. -/
def decodeStringListAux : JsonList → Option (List String)
  | .nil => some []
  | .cons j rest =>
    match j with
    | .str s => (decodeStringListAux rest).map (s :: ·)
    | _ => none

/-- Decode a JSON array of strings. -/
def decodeStringList : Json → Option (List String)
  | .arr xs => decodeStringListAux xs
  | _ => none

/-- Accumulator for the fields of a `Chapter` object seen so far. -/
structure ChapterAcc where
  name : Option String := none
  content : Option String := none
  number : Option (Option (List Nat)) := none
  sub_items : Option BookItems := none
  path : Option (Option String) := none
  source_path : Option (Option String) := none
  parent_names : Option (List String) := none

mutual
/-- Decode one externally tagged `BookItem`. -/
def decodeItem : Json → Option BookItem
  | .str s => if s = "Separator" then some .Separator else none
  | .obj (.cons tag payload .nil) =>
    if tag = "Chapter" then decodeChapter payload
    else if tag = "PartTitle" then
      match payload with
      | .str t => some (.PartTitle t)
      | _ => none
    else if tag = "Separator" then
      match payload with
      | .null => some .Separator
      | _ => none
    else none
  | _ => none

/-- Decode the payload of a `Chapter` variant. -/
def decodeChapter : Json → Option BookItem
  | .obj fs =>
    match decodeChapterFields fs {} with
    | some acc =>
      match acc.name, acc.content, acc.sub_items, acc.parent_names with
      | some name, some content, some subs, some parents =>
        some (.Chapter name content (acc.number.getD none) subs (acc.path.getD none)
          (acc.source_path.getD none) parents)
      | _, _, _, _ => none
    | none => none
  | _ => none

/-- Walk the fields of a chapter object, rejecting duplicates and
type-incorrect values, ignoring unknown keys. -/
def decodeChapterFields : JsonFields → ChapterAcc → Option ChapterAcc
  | .nil, acc => some acc
  | .cons k v rest, acc =>
    if k = "name" then
      match acc.name, v with
      | none, .str s => decodeChapterFields rest { acc with name := some s }
      | _, _ => none
    else if k = "content" then
      match acc.content, v with
      | none, .str s => decodeChapterFields rest { acc with content := some s }
      | _, _ => none
    else if k = "number" then
      match acc.number, decodeOptNumber v with
      | none, some n => decodeChapterFields rest { acc with number := some n }
      | _, _ => none
    else if k = "sub_items" then
      match acc.sub_items, v with
      | none, .arr xs =>
        match decodeItemList xs with
        | some items => decodeChapterFields rest { acc with sub_items := some items }
        | none => none
      | _, _ => none
    else if k = "path" then
      match acc.path, decodeOptString v with
      | none, some p => decodeChapterFields rest { acc with path := some p }
      | _, _ => none
    else if k = "source_path" then
      match acc.source_path, decodeOptString v with
      | none, some p => decodeChapterFields rest { acc with source_path := some p }
      | _, _ => none
    else if k = "parent_names" then
      match acc.parent_names, decodeStringList v with
      | none, some ps => decodeChapterFields rest { acc with parent_names := some ps }
      | _, _ => none
    else decodeChapterFields rest acc

/-- Decode the elements of a `sections` / `sub_items` array. -/
def decodeItemList : JsonList → Option BookItems
  | .nil => some .nil
  | .cons j rest =>
    match decodeItem j with
    | some item =>
      match decodeItemList rest with
      | some items => some (.cons item items)
      | none => none
    | none => none
end

/-- Walk the fields of a `Book` object: `sections` is required,
`__non_exhaustive` must be `null` when present, unknown keys are ignored. -/
def decodeBookFields : JsonFields → Option BookItems → Option (Option BookItems)
  | .nil, acc => some acc
  | .cons k v rest, acc =>
    if k = "sections" then
      match acc, v with
      | none, .arr xs =>
        match decodeItemList xs with
        | some items => decodeBookFields rest (some items)
        | none => none
      | _, _ => none
    else if k = "__non_exhaustive" then
      match v with
      | .null => decodeBookFields rest acc
      | _ => none
    else decodeBookFields rest acc

/-- Decode a `Book` from JSON. -/
def decodeBook (j : Json) : Option Book :=
  match j with
  | .obj fs =>
    match decodeBookFields fs none with
    | some (some items) => some ⟨items⟩
    | _ => none
  | _ => none

/-- Accumulator for the fields of a `PreprocessorContext` object. -/
structure CtxAcc where
  root : Option String := none
  config : Option Json := none
  renderer : Option String := none
  mdbook_version : Option String := none

/-- Walk the fields of a context object: `root`, `config`, `renderer` and
`mdbook_version` are all required; `config` must be an object. -/
def decodeContextFields : JsonFields → CtxAcc → Option CtxAcc
  | .nil, acc => some acc
  | .cons k v rest, acc =>
    if k = "root" then
      match acc.root, v with
      | none, .str s => decodeContextFields rest { acc with root := some s }
      | _, _ => none
    else if k = "config" then
      match acc.config, v with
      | none, .obj fs => decodeContextFields rest { acc with config := some (.obj fs) }
      | _, _ => none
    else if k = "renderer" then
      match acc.renderer, v with
      | none, .str s => decodeContextFields rest { acc with renderer := some s }
      | _, _ => none
    else if k = "mdbook_version" then
      match acc.mdbook_version, v with
      | none, .str s => decodeContextFields rest { acc with mdbook_version := some s }
      | _, _ => none
    else decodeContextFields rest acc

/-- Decode a `PreprocessorContext` from JSON. -/
def decodeContext (j : Json) : Option PreprocessorContext :=
  match j with
  | .obj fs =>
    match decodeContextFields fs {} with
    | some acc =>
      match acc.root, acc.config, acc.renderer, acc.mdbook_version with
      | some root, some config, some renderer, some v => some ⟨root, config, renderer, v⟩
      | _, _, _, _ => none
    | none => none
  | _ => none

/-- `CmdPreprocessor::parse_input`: the stream must be a JSON array of
exactly two elements, a context and a book. -/
def parse_input (input : Json) : Option (PreprocessorContext × Book) :=
  match input with
  | .arr (.cons c (.cons b .nil)) =>
    match decodeContext c, decodeBook b with
    | some ctx, some book => some (ctx, book)
    | _, _ => none
  | _ => none

/-! ## The preprocessor (`src/preprocessor.rs`)

`RFCPreprocessor` is a no-op preprocessor: `run` inspects its own
configuration block but returns the book unchanged (the deliberate-failure
`bail!` on the `blow-up` branch is commented out in the source), and
`supports_renderer` checks membership in the one-element allowlist
`["rfc"]`. -/

/-- `RFCPreprocessor::name`. -/
def RFCPreprocessor.name : String := "rfc-preprocessor"

/-- `Config::get_preprocessor`: the table at `preprocessor.<name>`, if any. -/
def get_preprocessor (config : Json) (name : String) : Option JsonFields :=
  match config.get "preprocessor" with
  | some t =>
    match t.get name with
    | some v => v.asObj
    | none => none
  | none => none

/-- `RFCPreprocessor::run`.  The source looks up its own configuration
block and tests for the `blow-up` key, but the failure on that branch is
commented out, so every branch returns the book unchanged. -/
def RFCPreprocessor.run (ctx : PreprocessorContext) (book : Book) : Except String Book :=
  match get_preprocessor ctx.config RFCPreprocessor.name with
  | some rfc_cfg =>
    if rfc_cfg.containsKey "blow-up" then
      Except.ok book
    else
      Except.ok book
  | none => Except.ok book

/-- `RFCPreprocessor::supports_renderer`: membership in `["rfc"]`. -/
def RFCPreprocessor.supports_renderer (renderer : String) : Bool :=
  ["rfc"].contains renderer

/-- The renderer allowlist hardcoded in `supports_renderer`. -/
def rendererAllowlist : List String := ["rfc"]

/-- Whether the context configures the deliberate-failure sentinel: a
`blow-up` key inside the `rfc-preprocessor` preprocessor block. -/
def blowUpConfigured (ctx : PreprocessorContext) : Bool :=
  match get_preprocessor ctx.config RFCPreprocessor.name with
  | some rfc_cfg => rfc_cfg.containsKey "blow-up"
  | none => false

/-! ## Semantic versions

The handshake parses the caller's `mdbook_version` with `semver::Version`
and the plugin's compile-time `mdbook::MDBOOK_VERSION` constant with
`semver::VersionReq`.  Both come from external crates, so they are embedded
here following the semver grammar the spec describes: a
`major.minor.patch` triple with optional pre-release and build metadata,
and a caret ("compatible") requirement derived from a bare version
string. -/

/-- Split a character list at the first occurrence of `c`. -/
def splitFirst (c : Char) : List Char → Option (List Char × List Char)
  | [] => none
  | x :: xs =>
    if x = c then some ([], xs)
    else
      match splitFirst c xs with
      | some (l, r) => some (x :: l, r)
      | none => none

/-- Split a character list on every occurrence of `c`. -/
def splitOnChar (c : Char) : List Char → List (List Char)
  | [] => [[]]
  | x :: xs =>
    let rest := splitOnChar c xs
    if x = c then [] :: rest
    else
      match rest with
      | [] => [[x]]
      | r :: rs => (x :: r) :: rs

/-- A valid numeric identifier: nonempty digits with no leading zero. -/
def numericIdValid (cs : List Char) : Bool :=
  !cs.isEmpty && cs.all (·.isDigit) && (cs == ['0'] || cs.head? != some '0')

/-- The numeric value of a digit string. -/
def charsToNat (cs : List Char) : Nat :=
  cs.foldl (fun a c => a * 10 + (c.toNat - '0'.toNat)) 0

/-- Parse one numeric version component. -/
def parseNumericId (cs : List Char) : Option Nat :=
  if numericIdValid cs then some (charsToNat cs) else none

/-- Characters allowed in pre-release and build identifiers. -/
def identChar (c : Char) : Bool := c.isAlphanum || c = '-'

/-- A valid pre-release identifier: nonempty, alphanumeric or hyphen, and
purely numeric identifiers must not have leading zeros. -/
def preIdValid (cs : List Char) : Bool :=
  !cs.isEmpty && cs.all identChar && (!cs.all (·.isDigit) || numericIdValid cs)

/-- A valid build identifier: nonempty, alphanumeric or hyphen. -/
def buildIdValid (cs : List Char) : Bool :=
  !cs.isEmpty && cs.all identChar

/-- A semantic version (`semver::Version`): numeric triple plus
pre-release and build identifier lists. -/
structure Version where
  major : Nat
  minor : Nat
  patch : Nat
  pre : List (List Char)
  build : List (List Char)
deriving DecidableEq

/-- `semver::Version::parse`: `major.minor.patch` with optional `-pre`
and `+build` suffixes. -/
def Version.parse (s : String) : Option Version :=
  let cs := s.toList
  let vpBuild : List Char × Option (List Char) :=
    match splitFirst '+' cs with
    | some (l, r) => (l, some r)
    | none => (cs, none)
  let corePre : List Char × Option (List Char) :=
    match splitFirst '-' vpBuild.1 with
    | some (l, r) => (l, some r)
    | none => (vpBuild.1, none)
  match splitOnChar '.' corePre.1 with
  | [ma, mi, pa] =>
    match parseNumericId ma, parseNumericId mi, parseNumericId pa with
    | some major, some minor, some patch =>
      let preIds : Option (List (List Char)) :=
        match corePre.2 with
        | none => some []
        | some p =>
          let ids := splitOnChar '.' p
          if ids.all preIdValid then some ids else none
      let buildIds : Option (List (List Char)) :=
        match vpBuild.2 with
        | none => some []
        | some b =>
          let ids := splitOnChar '.' b
          if ids.all buildIdValid then some ids else none
      match preIds, buildIds with
      | some ps, some bs => some ⟨major, minor, patch, ps, bs⟩
      | _, _ => none
    | _, _, _ => none
  | _ => none

/-- Is an identifier purely numeric? -/
def identIsNumeric (cs : List Char) : Bool :=
  !cs.isEmpty && cs.all (·.isDigit)

/-- Lexicographic (ASCII) comparison of identifiers. -/
def listCharCompare : List Char → List Char → Ordering
  | [], [] => .eq
  | [], _ :: _ => .lt
  | _ :: _, [] => .gt
  | a :: as, b :: bs =>
    if a < b then .lt else if b < a then .gt else listCharCompare as bs

/-- Semver precedence of one identifier: numeric identifiers compare by
value and rank below alphanumeric ones. -/
def identCompare (a b : List Char) : Ordering :=
  match identIsNumeric a, identIsNumeric b with
  | true, true => compare (charsToNat a) (charsToNat b)
  | true, false => .lt
  | false, true => .gt
  | false, false => listCharCompare a b

/-- Semver precedence of identifier sequences: elementwise, a strict
prefix ranks lower. -/
def identsCompare : List (List Char) → List (List Char) → Ordering
  | [], [] => .eq
  | [], _ :: _ => .lt
  | _ :: _, [] => .gt
  | a :: as, b :: bs =>
    match identCompare a b with
    | .eq => identsCompare as bs
    | o => o

/-- Precedence of pre-release tags: the absence of a tag ranks above any
tag. -/
def preCompare (a b : List (List Char)) : Ordering :=
  if a.isEmpty then (if b.isEmpty then .eq else .gt)
  else if b.isEmpty then .lt
  else identsCompare a b

/-- `a` ranks at least as high as `b` in pre-release precedence. -/
def preGe (a b : List (List Char)) : Bool :=
  preCompare a b != Ordering.lt

/-- Modelled from the spec: the companion "Version Requirement" used by the
compatibility check.  The code builds it with `semver::VersionReq::parse`
applied to the plugin's compile-time version constant, a bare
`major.minor.patch` string, which that parser interprets as a caret
("compatible") requirement; requirement strings admit no build
metadata. -/
structure VersionReq where
  base : Version
deriving DecidableEq

/-- Modelled from the spec: parse a bare semantic-version string as a
caret requirement. -/
def VersionReq.parse (s : String) : Option VersionReq :=
  match Version.parse s with
  | some v => if v.build.isEmpty then some ⟨v⟩ else none
  | none => none

/-- Caret compatibility of `v` with base version `b`: equal major, and at
least `b` within the leftmost nonzero component's range. -/
def caretMatches (b v : Version) : Bool :=
  if v.major ≠ b.major then false
  else if b.major > 0 then
    if v.minor ≠ b.minor then decide (b.minor < v.minor)
    else if v.patch ≠ b.patch then decide (b.patch < v.patch)
    else preGe v.pre b.pre
  else if b.minor > 0 then
    if v.minor ≠ b.minor then false
    else if v.patch ≠ b.patch then decide (b.patch < v.patch)
    else preGe v.pre b.pre
  else
    if v.minor != b.minor || v.patch != b.patch then false
    else preGe v.pre b.pre

/-- `semver::VersionReq::matches`: the caret comparator holds, and a
pre-release version is admitted only against a comparator carrying a
pre-release tag on the same triple. -/
def VersionReq.matches (r : VersionReq) (v : Version) : Bool :=
  caretMatches r.base v &&
    (v.pre.isEmpty ||
      (r.base.major == v.major && r.base.minor == v.minor &&
        r.base.patch == v.patch && !r.base.pre.isEmpty))

/-! ## The handshake (`handle_preprocessing` in `src/main.rs`)

The run is modelled as a record of what reaches each channel: the book
serialized to standard output (if any), the warnings printed to standard
error, and the final `Result`.  Every failure in the source collapses to
`MdBookRFCError::Other` with an attached message. -/

/-- `MdBookRFCError` (`src/error.rs`): a single variant. -/
inductive MdBookRFCError where
  | Other
deriving DecidableEq

deriving instance DecidableEq for Except

/-- The observable outcome of one handshake run. -/
structure PreprocessRun where
  output : Option Book
  warnings : List String
  result : Except MdBookRFCError Unit
deriving DecidableEq

/-- The version-mismatch warning text printed to standard error. -/
def mismatchWarning (pluginVersion callerVersion : String) : String :=
  "Warning: The " ++ RFCPreprocessor.name ++ " plugin was built against version " ++
    pluginVersion ++ " of mdbook, but we're being called from version " ++ callerVersion

/-- `handle_preprocessing`, given the plugin's compile-time
`mdbook::MDBOOK_VERSION` string and the already-decoded input (or `none`
when `parse_input` failed): parse the caller's version, parse the
requirement, warn on mismatch, run the preprocessor, and write the
resulting book to standard output. -/
def handle_preprocessing (mdbookVersion : String)
    (input : Option (PreprocessorContext × Book)) : PreprocessRun :=
  match input with
  | none => ⟨none, [], .error .Other⟩
  | some (ctx, book) =>
    match Version.parse ctx.mdbook_version with
    | none => ⟨none, [], .error .Other⟩
    | some book_version =>
      match VersionReq.parse mdbookVersion with
      | none => ⟨none, [], .error .Other⟩
      | some version_req =>
        let warnings :=
          if version_req.matches book_version then []
          else [mismatchWarning mdbookVersion ctx.mdbook_version]
        match RFCPreprocessor.run ctx book with
        | .ok processed_book => ⟨some processed_book, warnings, .ok ()⟩
        | .error _ => ⟨none, warnings, .error .Other⟩

/-- The whole stdin-to-stdout pipeline: decode, then preprocess. -/
def handle_preprocessing_json (mdbookVersion : String) (stdin : Json) : PreprocessRun :=
  handle_preprocessing mdbookVersion (parse_input stdin)

/-! ## The command-line tool (`src/main.rs`)

Subcommand handlers are embedded as functions of an `Env` — the outcomes
of the child-process, filesystem and config-file operations they would
perform — returning an `Outcome` (success, a propagated error, or a
panic from an `unwrap`) paired with the ordered trace of emitted
`Effect`s. -/

/-- One observable side effect of a subcommand run. -/
inductive Effect where
  | spawn (program : String) (args : List String) (dir : String)
  | createDir (path : String)
  | removeDirAll (path : String)
  | readConfig (path : String)
  | walk (dir : String)
  | print (msg : String)
  | eprint (msg : String)
  | writeStdout (book : Book)
deriving DecidableEq

/-- How a handler finishes: `Ok`, a propagated `Err`, or a panic. -/
inductive Outcome (α : Type) where
  | ok (a : α)
  | err (e : MdBookRFCError)
  | panic
deriving DecidableEq

/-- The environment a run observes: what each external operation would
return. -/
structure Env where
  cmdSpawnOk : String → List String → Bool
  cmdStatus : String → List String → Bool
  bookToml : Option Json
  pathExists : String → Bool
  createDirOk : String → Bool
  removeDirAllOk : String → Bool
  stdin : Json
  pluginVersion : String

/-- Sequence two effectful steps, short-circuiting on error or panic
(the `?` operator). -/
def andThen {α β : Type} (x : Outcome α × List Effect)
    (f : α → Outcome β × List Effect) : Outcome β × List Effect :=
  match x with
  | (.ok a, es) =>
    let y := f a
    (y.1, es ++ y.2)
  | (.err e, es) => (.err e, es)
  | (.panic, es) => (.panic, es)

/-- Emit a single effect and succeed. -/
def emit (e : Effect) : Outcome Unit × List Effect := (.ok (), [e])

/-- `call_command`: spawn `program args` in `folder` and fail with
`errorType` if the spawn fails or the child reports failure. -/
def call_command (env : Env) (program : String) (args : List String)
    (currentFolder : String) (errorType : MdBookRFCError) (error_msg : String) :
    Outcome Unit × List Effect :=
  let _ := error_msg
  if env.cmdSpawnOk program args then
    if env.cmdStatus program args then (.ok (), [.spawn program args currentFolder])
    else (.err errorType, [.spawn program args currentFolder])
  else (.err errorType, [.spawn program args currentFolder])

/-- `fetch_mdbook_config`: read `book.toml` from the working folder. -/
def fetch_mdbook_config (env : Env) (currentFolder : String) :
    Outcome Json × List Effect :=
  match env.bookToml with
  | some cfg => (.ok cfg, [.readConfig (currentFolder ++ "/book.toml")])
  | none => (.err .Other, [.readConfig (currentFolder ++ "/book.toml")])

/-- `RFCBookConfig` (`src/config.rs`). -/
structure RFCBookConfig where
  textFolder : String
  vendorFolder : String
  templateFolder : String
  preprocessors : List String
  packages : List String
deriving DecidableEq

/-- The `Default` impl of `RFCBookConfig`. -/
def RFCBookConfig.default : RFCBookConfig :=
  ⟨"text", "public", "template", [], []⟩

/-- Collect `(preprocessor name, package)` pairs from the `preprocessor`
table.  A `command` value that is not a string hits the
`as_str().unwrap()` in the source and panics. -/
def collectPreps : JsonFields → Outcome (List String × List String)
  | .nil => .ok ([], [])
  | .cons prepName prepParams rest =>
    let pkg : Outcome String :=
      match prepParams.get "command" with
      | some (.str s) => .ok s
      | some _ => .panic
      | none => .ok prepName
    match pkg with
    | .ok p =>
      match collectPreps rest with
      | .ok (ps, ks) => .ok (prepName :: ps, p :: ks)
      | .err e => .err e
      | .panic => .panic
    | .err e => .err e
    | .panic => .panic

/-- `fetch_rfcbook_config`: derive the RFC book configuration from the
parsed `book.toml`. -/
def fetch_rfcbook_config (mdBookCfg : Json) : Outcome RFCBookConfig × List Effect :=
  match mdBookCfg.get "preprocessor" with
  | some preprocessors =>
    match preprocessors.asObj with
    | some entries =>
      match collectPreps entries with
      | .ok (ps, ks) =>
        (.ok { RFCBookConfig.default with preprocessors := ps, packages := ks }, [])
      | .err e => (.err e, [])
      | .panic => (.panic, [])
    | none => (.err .Other, [])
  | none => (.ok RFCBookConfig.default, [.print "Could not find preprocessors to install."])

/-- The folder-scaffolding loop of `handle_install`: create each folder
unless it already exists; a failed `create_dir` is a propagated error. -/
def createFolders (env : Env) (currentFolder : String) :
    List String → Outcome Unit × List Effect
  | [] => (.ok (), [])
  | f :: rest =>
    let path := currentFolder ++ "/" ++ f
    let creating := Effect.print ("Creating folder " ++ f ++ "... ")
    if env.pathExists path then
      let r := createFolders env currentFolder rest
      (r.1, creating :: Effect.print ("Folder " ++ f ++ " exists, no action needed. ") :: r.2)
    else if env.createDirOk path then
      let r := createFolders env currentFolder rest
      (r.1, creating :: Effect.createDir path :: r.2)
    else
      (.err MdBookRFCError.Other, [creating, Effect.createDir path])

/-- `handle_install`: read the config, `cargo install` the packages, then
scaffold the template, text and vendor folders. -/
def handle_install (env : Env) (currentFolder : String) : Outcome Unit × List Effect :=
  andThen (fetch_mdbook_config env currentFolder) fun mdBookCfg =>
  andThen (fetch_rfcbook_config mdBookCfg) fun rfcBookCfg =>
  let packages := "mdbook" :: rfcBookCfg.packages
  let args := "install" :: packages
  andThen (emit (.print ("Installing preprocessor packages: " ++
      String.intercalate ", " packages ++ "... "))) fun _ =>
  andThen (call_command env "cargo" args currentFolder .Other
      "Installing preprocessor packages failed.") fun _ =>
  createFolders env currentFolder
    [rfcBookCfg.templateFolder, rfcBookCfg.textFolder, rfcBookCfg.vendorFolder]

/-- `handle_init`: `mdbook init`, then install. -/
def handle_init (env : Env) (currentFolder : String) : Outcome Unit × List Effect :=
  andThen (emit (.print "Initializing book... ")) fun _ =>
  andThen (call_command env "mdbook" ["init"] currentFolder .Other
      "Could not initialize book.") fun _ =>
  handle_install env currentFolder

/-- `handle_build`: delegate to `mdbook build`. -/
def handle_build (env : Env) (currentFolder : String) : Outcome Unit × List Effect :=
  andThen (emit (.print "Building book... ")) fun _ =>
  call_command env "mdbook" ["build"] currentFolder .Other "Could not build book."

/-- `handle_populate`: the body is just `Ok(())`. -/
def handle_populate (env : Env) (currentFolder : String) : Outcome Unit × List Effect :=
  let _ := env
  let _ := currentFolder
  (.ok (), [])

/-- `handle_add`: spawn `cargo build` (inlined in the source, same shape
as `call_command`). -/
def handle_add (env : Env) (currentFolder : String) : Outcome Unit × List Effect :=
  andThen (emit (.print "Building book... ")) fun _ =>
  if env.cmdSpawnOk "cargo" ["build"] then
    if env.cmdStatus "cargo" ["build"] then
      (.ok (), [.spawn "cargo" ["build"] currentFolder])
    else (.err .Other, [.spawn "cargo" ["build"] currentFolder])
  else (.err .Other, [.spawn "cargo" ["build"] currentFolder])

/-- `handle_clean`: `mdbook clean`, read the config, then
`remove_dir_all(vendor).unwrap()` — a failed removal panics instead of
propagating. -/
def handle_clean (env : Env) (currentFolder : String) : Outcome Unit × List Effect :=
  andThen (emit (.print "cleaning book... ")) fun _ =>
  andThen (call_command env "mdbook" ["clean"] currentFolder .Other
      "Could not initialize book.") fun _ =>
  andThen (fetch_mdbook_config env currentFolder) fun mdBookCfg =>
  andThen (fetch_rfcbook_config mdBookCfg) fun rfcBookCfg =>
  let path := currentFolder ++ "/" ++ rfcBookCfg.vendorFolder
  if env.removeDirAllOk path then (.ok (), [.removeDirAll path])
  else (.panic, [.removeDirAll path])

/-- `handle_watch`: delegate to `mdbook watch`. -/
def handle_watch (env : Env) (currentFolder : String) : Outcome Unit × List Effect :=
  andThen (emit (.print "Initializing book... ")) fun _ =>
  call_command env "mdbook" ["watch"] currentFolder .Other "Could not initialize book."

/-- `handle_new`: read the config, then iterate the template folder with
an empty loop body. -/
def handle_new (env : Env) (currentFolder : String) : Outcome Unit × List Effect :=
  andThen (fetch_mdbook_config env currentFolder) fun mdBookCfg =>
  andThen (fetch_rfcbook_config mdBookCfg) fun rfcBookCfg =>
  (.ok (), [.walk rfcBookCfg.templateFolder])

/-- `handle_serve`: delegate to `mdbook serve`. -/
def handle_serve (env : Env) (currentFolder : String) : Outcome Unit × List Effect :=
  andThen (emit (.print "Serving book...")) fun _ =>
  call_command env "mdbook" ["serve"] currentFolder .Other "Could not initialize book."

/-- The exit code `handle_supports` passes to `exit`: `0` when the
renderer is supported, `1` otherwise. -/
def handle_supports (renderer : String) : Nat :=
  if RFCPreprocessor.supports_renderer renderer then 0 else 1

/-- The `CmdQuery` subcommand enum. -/
inductive CmdQuery where
  | Init
  | Add
  | Install
  | Build
  | Populate
  | Supports (renderer : String)
  | Clean
  | Watch
  | New
  | Serve
deriving DecidableEq

/-- How `process` finishes: `handle_supports` exits the process directly,
`handle_clean` can panic, everything else completes with a `Result`. -/
inductive ProcResult where
  | exited (code : Nat)
  | panicked
  | completed (r : Except MdBookRFCError Unit)
deriving DecidableEq

/-- Lift a handler outcome into a `process` result. -/
def liftH (x : Outcome Unit × List Effect) : ProcResult × List Effect :=
  match x.1 with
  | .ok _ => (.completed (.ok ()), x.2)
  | .err e => (.completed (.error e), x.2)
  | .panic => (.panicked, x.2)

/-- The channel traffic of one handshake run, as effects: warnings on
standard error, then the book on standard output. -/
def preprocessEffects (r : PreprocessRun) : List Effect :=
  r.warnings.map .eprint ++
    (match r.output with
     | some b => [.writeStdout b]
     | none => [])

/-- `process`: dispatch on the parsed subcommand; no subcommand means a
handshake run on standard input. -/
def process (env : Env) (currentFolder : String) (command : Option CmdQuery) :
    ProcResult × List Effect :=
  match command with
  | some CmdQuery.Init => liftH (handle_init env currentFolder)
  | some CmdQuery.Install => liftH (handle_install env currentFolder)
  | some CmdQuery.Add => liftH (handle_add env currentFolder)
  | some CmdQuery.Build => liftH (handle_build env currentFolder)
  | some CmdQuery.Populate => liftH (handle_populate env currentFolder)
  | some (CmdQuery.Supports renderer) => (.exited (handle_supports renderer), [])
  | some CmdQuery.Clean => liftH (handle_clean env currentFolder)
  | some CmdQuery.Watch => liftH (handle_watch env currentFolder)
  | some CmdQuery.New => liftH (handle_new env currentFolder)
  | some CmdQuery.Serve => liftH (handle_serve env currentFolder)
  | none =>
    let r := handle_preprocessing_json env.pluginVersion env.stdin
    (.completed r.result, preprocessEffects r)

/-- How the whole process terminates. -/
inductive Termination where
  | normalExit (code : Nat)
  | abnormal
deriving DecidableEq

/-- `main`: on `Err` it only logs the report and returns, so the process
still exits with code `0`; a panic aborts abnormally; `exit` inside
`handle_supports` passes its code through. -/
def mainTermination (env : Env) (currentFolder : String)
    (command : Option CmdQuery) : Termination :=
  match (process env currentFolder command).1 with
  | .exited code => .normalExit code
  | .panicked => .abnormal
  | .completed _ => .normalExit 0

/-- The messages `main` logs on a completed-with-error run. -/
def mainLogs (env : Env) (currentFolder : String)
    (command : Option CmdQuery) : List String :=
  match (process env currentFolder command).1 with
  | .completed (.error _) =>
    ["The process could not be completed. Quiting.", "<error report>"]
  | _ => []

/-! ## Concrete values

Example payloads (following the handshake sample in the preprocessor's
test), malformed variants of them, and environments for the subcommand
runs. -/

/-- The example `config` object of the handshake sample. -/
def configJsonExample : Json :=
  .obj (fieldsOf [
    ("book", .obj (fieldsOf [
      ("authors", .arr (arrOf [.str "AUTHOR"])),
      ("language", .str "en"),
      ("multilingual", .bool false),
      ("src", .str "src"),
      ("title", .str "TITLE")])),
    ("preprocessor", .obj (fieldsOf [("rfc", .obj .nil)]))])

/-- The example context object of the handshake sample. -/
def ctxJsonExample : Json :=
  .obj (fieldsOf [
    ("root", .str "/path/to/book"),
    ("config", configJsonExample),
    ("renderer", .str "html"),
    ("mdbook_version", .str "0.4.21")])

/-- The example context object with the required `mdbook_version` field
removed. -/
def ctxJsonMissingVersion : Json :=
  .obj (fieldsOf [
    ("root", .str "/path/to/book"),
    ("config", configJsonExample),
    ("renderer", .str "html")])

/-- The example chapter object of the handshake sample. -/
def chapterJsonExample : Json :=
  .obj (fieldsOf [
    ("name", .str "Chapter 1"),
    ("content", .str "# Chapter 1\n"),
    ("number", .arr (arrOf [.num 1])),
    ("sub_items", .arr (arrOf [])),
    ("path", .str "chapter_1.md"),
    ("source_path", .str "chapter_1.md"),
    ("parent_names", .arr (arrOf []))])

/-- The example book object of the handshake sample. -/
def bookJsonExample : Json :=
  .obj (fieldsOf [
    ("sections", .arr (arrOf [.obj (fieldsOf [("Chapter", chapterJsonExample)])])),
    ("__non_exhaustive", .null)])

/-- The well-formed two-element handshake payload. -/
def inputExample : Json := .arr (arrOf [ctxJsonExample, bookJsonExample])

/-- A handshake payload missing the second array element. -/
def inputMissingSecondElement : Json := .arr (arrOf [ctxJsonExample])

/-- A handshake payload whose context lacks `mdbook_version`. -/
def inputContextMissingVersion : Json :=
  .arr (arrOf [ctxJsonMissingVersion, bookJsonExample])

/-- The decoded example context. -/
def ctxExample : PreprocessorContext :=
  ⟨"/path/to/book", configJsonExample, "html", "0.4.21"⟩

/-- The decoded example book. -/
def bookExample : Book :=
  ⟨.cons (.Chapter "Chapter 1" "# Chapter 1\n" (some [1]) .nil (some "chapter_1.md")
    (some "chapter_1.md") []) .nil⟩

/-- The empty book. -/
def bookEmpty : Book := ⟨BookItems.nil⟩

/-- A context declaring tool version `0.5.0` (a caret mismatch against a
`0.4.x` plugin). -/
def ctxMismatch : PreprocessorContext :=
  ⟨"/path/to/book", Json.obj JsonFields.nil, "html", "0.5.0"⟩

/-- A context whose declared tool version is not a semantic version. -/
def ctxBadVersion : PreprocessorContext :=
  ⟨"/path/to/book", Json.obj JsonFields.nil, "html", "banana"⟩

/-- A context configuring the `blow-up` sentinel inside the
`rfc-preprocessor` block. -/
def ctxBlowUp : PreprocessorContext :=
  ⟨"/path/to/book",
   Json.obj (fieldsOf [("preprocessor", Json.obj (fieldsOf
     [("rfc-preprocessor", Json.obj (fieldsOf [("blow-up", Json.bool true)]))]))]),
   "rfc", "0.4.21"⟩

/-- An environment in which every delegated child process reports
failure and no config file can be read. -/
def envAllFail : Env where
  cmdSpawnOk := fun _ _ => true
  cmdStatus := fun _ _ => false
  bookToml := none
  pathExists := fun _ => false
  createDirOk := fun _ => false
  removeDirAllOk := fun _ => false
  stdin := Json.null
  pluginVersion := "0.4.21"

/-- An environment in which everything succeeds except the removal of
the vendor folder. -/
def envRemoveFails : Env where
  cmdSpawnOk := fun _ _ => true
  cmdStatus := fun _ _ => true
  bookToml := some (Json.obj JsonFields.nil)
  pathExists := fun _ => true
  createDirOk := fun _ => true
  removeDirAllOk := fun _ => false
  stdin := Json.null
  pluginVersion := "0.4.21"

/-- Effects that read but never modify the working directory and never
start a child process or write the primary output stream. -/
def effectIsReadOnly : Effect → Bool
  | .spawn _ _ _ => false
  | .createDir _ => false
  | .removeDirAll _ => false
  | .writeStdout _ => false
  | .readConfig _ => true
  | .walk _ => true
  | .print _ => true
  | .eprint _ => true

/-! ## Shared lemmas -/

/-- The preprocessor is a no-op on every branch: the deliberate-failure
path is commented out in the source. -/
theorem run_eq_ok (ctx : PreprocessorContext) (book : Book) :
    RFCPreprocessor.run ctx book = Except.ok book := by
  unfold RFCPreprocessor.run
  repeat' split
  all_goals rfl

/-- The well-formed sample payload decodes to the expected context and
book (decoder sanity check). -/
theorem parse_input_example :
    parse_input inputExample = some (ctxExample, bookExample) := by decide

/-- `andThen` preserves an effect predicate that both steps satisfy. -/
theorem andThen_all {α β : Type} (p : Effect → Bool) (x : Outcome α × List Effect)
    (f : α → Outcome β × List Effect) (hx : x.2.all p = true)
    (hf : ∀ a, ((f a).2.all p) = true) : ((andThen x f).2.all p) = true := by
  rcases x with ⟨o, es⟩
  cases o with
  | ok a => simp [andThen, List.all_append, hx, hf a]
  | err e => simpa [andThen] using hx
  | panic => simpa [andThen] using hx

/-- `fetch_rfcbook_config` only prints: it never mutates or spawns. -/
theorem fetch_rfcbook_config_readonly (cfg : Json) :
    ((fetch_rfcbook_config cfg).2.all effectIsReadOnly) = true := by
  unfold fetch_rfcbook_config
  repeat' split
  all_goals rfl

/-! ## Claims -/

/-- C1: for every context and every well-formed document tree, when no
transform-triggering configuration (the `blow-up` sentinel) is present,
the transform stage `run(ctx, B)` succeeds and returns a tree
structurally equal to `B` — no field additions, deletions, or
reorderings. -/
theorem run_identity_without_trigger (ctx : PreprocessorContext) (book : Book)
    (_h : blowUpConfigured ctx = false) :
    RFCPreprocessor.run ctx book = Except.ok book :=
  run_eq_ok ctx book

/-- Witness for C1: the sample context configures no `blow-up` sentinel,
and `run` returns the sample book unchanged. -/
theorem run_identity_without_trigger_witness :
    blowUpConfigured ctxExample = false ∧
    RFCPreprocessor.run ctxExample bookExample = Except.ok bookExample :=
  ⟨by decide, run_identity_without_trigger ctxExample bookExample (by decide)⟩

/-- C2: `supports_renderer(name)` is true exactly when `name` is a member
of the static allowlist, compared case-sensitively with no
normalization; in particular `"rfc"` is supported while `"RFC"` and
`"html"` are not. -/
theorem supports_renderer_allowlist :
    (∀ name : String,
      RFCPreprocessor.supports_renderer name = true ↔ name ∈ rendererAllowlist) ∧
    RFCPreprocessor.supports_renderer "rfc" = true ∧
    RFCPreprocessor.supports_renderer "RFC" = false ∧
    RFCPreprocessor.supports_renderer "html" = false := by
  refine ⟨fun name => ?_, by decide, by decide, by decide⟩
  simp [RFCPreprocessor.supports_renderer, rendererAllowlist, List.contains]

/-- C3: the renderer-support query exits with code 0 when the renderer is
in the allowlist and 1 otherwise, emitting no output effects at all; in
particular `rfc` exits 0 and `pdf` exits 1. -/
theorem supports_exit_code :
    (∀ renderer : String,
      handle_supports renderer = if renderer ∈ rendererAllowlist then 0 else 1) ∧
    (∀ (env : Env) (folder : String) (renderer : String),
      process env folder (some (CmdQuery.Supports renderer)) =
        (ProcResult.exited (handle_supports renderer), [])) ∧
    handle_supports "rfc" = 0 ∧ handle_supports "pdf" = 1 := by
  refine ⟨fun renderer => ?_, fun env folder renderer => rfl, by decide, by decide⟩
  simp [handle_supports, RFCPreprocessor.supports_renderer, rendererAllowlist,
    List.contains]

/-- C4: when both the plugin's compile-time version string and the
caller's declared `mdbook_version` parse, a satisfied requirement emits
no warning, a mismatch emits exactly one warning on the diagnostic
channel, and either way the run completes successfully with the
(unchanged) book on standard output. -/
theorem version_mismatch_warning (mdbookVersion : String)
    (ctx : PreprocessorContext) (book : Book) (v : Version) (r : VersionReq)
    (hv : Version.parse ctx.mdbook_version = some v)
    (hr : VersionReq.parse mdbookVersion = some r) :
    (handle_preprocessing mdbookVersion (some (ctx, book))).warnings =
      (if r.matches v then []
       else [mismatchWarning mdbookVersion ctx.mdbook_version]) ∧
    (handle_preprocessing mdbookVersion (some (ctx, book))).output = some book ∧
    (handle_preprocessing mdbookVersion (some (ctx, book))).result = Except.ok () := by
  simp [handle_preprocessing, hv, hr, run_eq_ok]

/-- Witness for C4: a plugin built against `0.4.21` called from `0.5.0`
emits exactly the one mismatch warning and still writes the book. -/
theorem version_mismatch_warning_witness :
    (handle_preprocessing "0.4.21" (some (ctxMismatch, bookEmpty))).warnings =
      [mismatchWarning "0.4.21" "0.5.0"] ∧
    (handle_preprocessing "0.4.21" (some (ctxMismatch, bookEmpty))).output =
      some bookEmpty ∧
    (handle_preprocessing "0.4.21" (some (ctxMismatch, bookEmpty))).result =
      Except.ok () := by
  have h := version_mismatch_warning "0.4.21" ctxMismatch bookEmpty
    ⟨0, 5, 0, [], []⟩ ⟨⟨0, 4, 21, [], []⟩⟩ (by decide) (by decide)
  refine ⟨?_, h.2.1, h.2.2⟩
  rw [h.1]
  decide

/-- C5: a caller-declared tool-version string that is not a valid
semantic version makes `handle_preprocessing` fail with a fatal error
before anything reaches the primary output stream, and without emitting
the mismatch warning. -/
theorem version_parse_error_fatal (mdbookVersion : String)
    (ctx : PreprocessorContext) (book : Book)
    (h : Version.parse ctx.mdbook_version = none) :
    handle_preprocessing mdbookVersion (some (ctx, book)) =
      ⟨none, [], Except.error MdBookRFCError.Other⟩ := by
  simp [handle_preprocessing, h]

/-- Witness for C5: `"banana"` is not a semantic version, and the run
with that declared version fails fatally with no output. -/
theorem version_parse_error_fatal_witness :
    Version.parse "banana" = none ∧
    handle_preprocessing "0.4.21" (some (ctxBadVersion, bookEmpty)) =
      ⟨none, [], Except.error MdBookRFCError.Other⟩ :=
  ⟨by decide, version_parse_error_fatal "0.4.21" ctxBadVersion bookEmpty (by decide)⟩

/-- C6: every input that fails to decode as a two-element handshake
payload yields a fatal decode error and no output on the primary
channel; in particular a payload missing the second array element and a
payload whose context lacks `mdbook_version` both fail to decode. -/
theorem decode_failure_no_output :
    (∀ (mdbookVersion : String) (input : Json), parse_input input = none →
      (handle_preprocessing_json mdbookVersion input).output = none ∧
      (handle_preprocessing_json mdbookVersion input).result =
        Except.error MdBookRFCError.Other) ∧
    parse_input inputMissingSecondElement = none ∧
    parse_input inputContextMissingVersion = none := by
  refine ⟨fun mv input h => ?_, by decide, by decide⟩
  simp [handle_preprocessing_json, handle_preprocessing, h]

/-- Witness for C6: the payload missing its second element produces no
output and a fatal error. -/
theorem decode_failure_no_output_witness :
    (handle_preprocessing_json "0.4.21" inputMissingSecondElement).output = none ∧
    (handle_preprocessing_json "0.4.21" inputMissingSecondElement).result =
      Except.error MdBookRFCError.Other :=
  decode_failure_no_output.1 "0.4.21" inputMissingSecondElement (by decide)

/-- C7 (code bug): a failed delegated `mdbook build` propagates an error
to the top level and `main` logs the failure report, yet the process
still terminates with exit code 0 — `main` matches on the `Err`, logs,
and returns normally, so no non-zero exit code is ever produced. -/
theorem failed_build_still_exits_zero :
    (process envAllFail "." (some CmdQuery.Build)).1 =
      ProcResult.completed (Except.error MdBookRFCError.Other) ∧
    mainTermination envAllFail "." (some CmdQuery.Build) =
      Termination.normalExit 0 ∧
    mainLogs envAllFail "." (some CmdQuery.Build) =
      ["The process could not be completed. Quiting.", "<error report>"] := by
  decide

/-- C8 (code bug): when `mdbook clean` succeeds but removing the vendor
folder fails, `handle_clean` hits `remove_dir_all(..).unwrap()` and the
process aborts abnormally via panic — no error report chain is produced
and the normal error-reporting path is bypassed. -/
theorem clean_removal_failure_panics :
    (process envRemoveFails "." (some CmdQuery.Clean)).1 = ProcResult.panicked ∧
    mainTermination envRemoveFails "." (some CmdQuery.Clean) =
      Termination.abnormal ∧
    mainLogs envRemoveFails "." (some CmdQuery.Clean) = [] := by
  decide

/-- C9: `RFCPreprocessor::run` returns `Ok` with the unchanged book for
every context and book — including a context whose `rfc-preprocessor`
block contains the `blow-up` sentinel key, since the deliberate-failure
path is commented out; `run` never returns an error. -/
theorem run_is_total_identity :
    (∀ (ctx : PreprocessorContext) (book : Book),
      RFCPreprocessor.run ctx book = Except.ok book) ∧
    blowUpConfigured ctxBlowUp = true ∧
    (∀ book : Book, RFCPreprocessor.run ctxBlowUp book = Except.ok book) :=
  ⟨run_eq_ok, by decide, fun book => run_eq_ok ctxBlowUp book⟩

/-- C10: `handle_populate` always succeeds with an empty effect trace,
and `handle_new` only reads (config read, directory walk, prints): in
every environment neither handler creates, removes, spawns, or writes
the primary output stream. -/
theorem populate_new_no_mutation :
    (∀ (env : Env) (folder : String),
      handle_populate env folder = (Outcome.ok (), [])) ∧
    (∀ (env : Env) (folder : String),
      ((handle_new env folder).2.all effectIsReadOnly) = true) := by
  refine ⟨fun env folder => rfl, fun env folder => ?_⟩
  unfold handle_new
  apply andThen_all
  · unfold fetch_mdbook_config
    cases env.bookToml <;> rfl
  · intro cfg
    apply andThen_all
    · exact fetch_rfcbook_config_readonly cfg
    · intro rfcCfg
      rfl
